import Mathlib

/-!
Verification development for the claude-context indexing/retrieval engine.

The definitions below embed, in Lean, the parts of the TypeScript sources
that the stated properties are about: the MCP configuration helpers
(`config.ts`), the OpenAI embedding provider (`openai-embedding.ts`), the
mock embedding provider (`mock-embedding.ts`), and — where only the tests of
a component ship in the repository snapshot — models of the path-fingerprint
utilities, the `SnapshotManager`, and the MCP `ToolHandlers`, built from the
specification and pinned down by the behaviour the unit tests assert.
-/

namespace ClaudeContext

/-- Environment lookup, modelling `envManager.get`: a variable is either set
to a string or absent. -/
def Env : Type := String → Option String

/-- JavaScript `a || b` for an optional string against a string default:
`undefined` and the empty string are falsy. -/
def jsOr (a : Option String) (b : String) : String :=
  match a with
  | some s => if s = "" then b else s
  | none => b

/-- JavaScript `a || b` on two strings (the empty string is falsy). -/
def jsOrStr (a b : String) : String :=
  if a = "" then b else a

/-! Configuration helpers from `config.ts` (src/unnamed/part_000..006 block
holding `createMcpConfig`). -/

/-- The valid lowercase provider names checked by `createMcpConfig`. -/
def validProviders : List String := ["openai", "voyage", "gemini", "ollama"]

/-- Embeds `getDefaultModelForProvider`: the switch over lowercase provider
names, with `text-embedding-3-small` as the default branch. -/
def getDefaultModelForProvider (provider : String) : String :=
  if provider = "openai" then "text-embedding-3-small"
  else if provider = "voyage" then "voyage-code-3"
  else if provider = "gemini" then "gemini-embedding-001"
  else if provider = "ollama" then "nomic-embed-text"
  else "text-embedding-3-small"

/-- Embeds `getEmbeddingModelForProvider`: for `ollama` the chain
`OLLAMA_MODEL || EMBEDDING_MODEL || default`; every other provider string
(the `openai`/`voyage`/`gemini` cases share the `default` branch) uses
`EMBEDDING_MODEL || default`. -/
def getEmbeddingModelForProvider (env : Env) (provider : String) : String :=
  if provider = "ollama" then
    jsOr (env "OLLAMA_MODEL") (jsOr (env "EMBEDDING_MODEL") (getDefaultModelForProvider provider))
  else
    jsOr (env "EMBEDDING_MODEL") (getDefaultModelForProvider provider)

/-- The fields of `ContextMcpConfig` that the configuration claims are
about (the API-key and host fields are pass-throughs of single environment
variables and are omitted from the model). -/
structure ContextMcpConfig where
  name : String
  version : String
  embeddingProvider : String
  embeddingModel : String

/-- Embeds `createMcpConfig`: reads `EMBEDDING_PROVIDER` (default
`openai`), keeps it only when it is one of `validProviders` (else silently
falls back to `openai`), but resolves the model from the raw, unvalidated
provider string. -/
def createMcpConfig (env : Env) : ContextMcpConfig :=
  let rawProvider := jsOr (env "EMBEDDING_PROVIDER") "openai"
  let finalProvider := if validProviders.contains rawProvider then rawProvider else "openai"
  { name := jsOr (env "MCP_SERVER_NAME") "Context MCP Server"
    version := jsOr (env "MCP_SERVER_VERSION") "1.0.0"
    embeddingProvider := finalProvider
    embeddingModel := getEmbeddingModelForProvider env rawProvider }

/-! OpenAI embedding provider from
`packages/core/src/embedding/openai-embedding.ts`. -/

/-- Configuration for `OpenAIEmbedding`; `dimension` is the optional manual
override (`number | undefined` in the source). -/
structure OpenAIEmbeddingConfig where
  model : String
  apiKey : String
  baseURL : Option String
  dimension : Option Nat

/-- Embeds `OpenAIEmbedding.getSupportedModels` as a lookup of the known
model dimensions. -/
def knownModelDimension (model : String) : Option Nat :=
  if model = "text-embedding-3-small" then some 1536
  else if model = "text-embedding-3-large" then some 3072
  else if model = "text-embedding-ada-002" then some 1536
  else none

/-- Embeds `OpenAIEmbedding.getDimension`: known models return their table
dimension; otherwise a truthy (`> 0`) configured override is returned; an
unknown custom model without an override returns `0` (the source comments
that `0` signals that the dimension needs manual configuration). -/
def getDimension (config : OpenAIEmbeddingConfig) : Nat :=
  let model := jsOrStr config.model "text-embedding-3-small"
  match knownModelDimension model with
  | some d => d
  | none =>
    match config.dimension with
    | some d => if 0 < d then d else 0
    | none => 0

/-- Embeds `OpenAIEmbedding.detectDimension`: known models resolve without
an API call; custom models throw. -/
def detectDimension (config : OpenAIEmbeddingConfig) : Except String Nat :=
  let model := jsOrStr config.model "text-embedding-3-small"
  match knownModelDimension model with
  | some d => Except.ok d
  | none => Except.error ("Cannot auto-detect dimension for custom OpenAI model " ++ model)

/-! Mock embedding provider from
`packages/core/src/test-helpers/mock-embedding.ts`. JavaScript numbers are
modelled as Lean `Float`. -/

/-- The `{vector, dimension}` record returned by `embed`. -/
structure EmbeddingVector where
  vector : List Float
  dimension : Nat

/-- JavaScript `text.charCodeAt(i)` for in-range `i`; out-of-range access
(only reachable here for the empty string, where the source produces `NaN`
entries) is modelled as code `0` — the vector length, which the claims are
about, is unaffected. -/
def jsCharCodeAt (text : String) (i : Nat) : Nat :=
  (text.data.getD i (Char.ofNat 0)).toNat

/-- Embeds `mockEmbedWithDimension`: a length-`dimension` array of
deterministic values `((charCode + i * 31) % 100) / 100 - 0.5`, then
normalized by the Euclidean magnitude. -/
def mockEmbedWithDimension (text : String) (dimension : Nat) : List Float :=
  let embedding := (List.range dimension).map (fun i =>
    let charIndex := i % text.length
    let charCode := jsCharCodeAt text charIndex
    Float.ofNat ((charCode + i * 31) % 100) / 100 - 0.5)
  let magnitude := Float.sqrt (embedding.foldl (fun sum v => sum + v * v) 0)
  embedding.map (fun v => v / magnitude)

/-- The `MockEmbeddingProvider` state: its configured dimension
(constructor default `MOCK_EMBEDDING_DIMENSION = 1536`). -/
structure MockEmbeddingProvider where
  dimension : Nat

/-- Embeds `MockEmbeddingProvider.embed`. -/
def MockEmbeddingProvider.embed (p : MockEmbeddingProvider) (text : String) : EmbeddingVector :=
  let vector := mockEmbedWithDimension text p.dimension
  ⟨vector, vector.length⟩

/-- Embeds `MockEmbeddingProvider.embedBatch`: `Promise.all(texts.map(embed))`. -/
def MockEmbeddingProvider.embedBatch (p : MockEmbeddingProvider) (texts : List String) : List EmbeddingVector :=
  texts.map p.embed

/-- Embeds `MockEmbeddingProvider.getDimension`. -/
def MockEmbeddingProvider.getDimension (p : MockEmbeddingProvider) : Nat :=
  p.dimension

/-! Path fingerprint and collection naming. -/

/-- Modelled from the spec: the core's `getPathHash` (in
`packages/core/src/utils/vector-paths.ts`, absent from the repository
snapshot) takes the first 8 lowercase-hex characters of a SHA-256 digest of
the canonical path. The digest itself is a cryptographic primitive whose
value is irrelevant to the stated properties (which concern only the
8-lowercase-hex shape and the sharing of one fingerprint function); a
deterministic polynomial byte hash into the same 256-bit range stands in
for it, keeping the model executable. -/
def pathDigest (p : String) : Nat :=
  p.data.foldl (fun acc c => (acc * 31 + c.toNat) % (2 ^ 256)) 7

/-- The lowercase hexadecimal digit for a value below 16: `0`–`9` are the
ASCII digits (code 48 up), `10`–`15` the letters `a`–`f` (code 97 up). -/
def hexChar (n : Nat) : Char :=
  if n < 10 then Char.ofNat (48 + n) else Char.ofNat (87 + n)

/-- The sixteen lowercase hexadecimal digits. -/
def hexChars : List Char :=
  (List.range 16).map hexChar

/-- Lowercase hexadecimal rendering of `n` to exactly `count` digits,
most-significant first. -/
def toHexDigits (n : Nat) (count : Nat) : List Char :=
  (List.range count).reverse.map (fun i => hexChars.getD ((n / 16 ^ i) % 16) '0')

/-- The 64 hex characters of the (modelled) SHA-256 digest of a path. -/
def sha256HexDigits (p : String) : List Char :=
  toHexDigits (pathDigest p) 64

/-- Modelled from the spec: `getPathHash(p)` — the first 8 hex characters
of the digest; the single source of truth for the path fingerprint, reused
by the collection-name builder and the path registry. -/
def getPathHash (p : String) : String :=
  String.mk ((sha256HexDigits p).take 8)

/-- Modelled from the spec: `Context.getCollectionName(p)` (the engine is
absent from the repository snapshot) — the collection-name builder calls
the same `getPathHash` as the registry. -/
def getCollectionName (p : String) : String :=
  "hybrid_code_chunks_" ++ getPathHash p

/-! Snapshot data model, from the interfaces in `config.ts`
(`CodebaseSnapshotV1`, `CodebaseInfo*`, `CodebaseSnapshotV2`). Progress
percentages, which the tests exercise with values like `75.5`, are
modelled as rationals. -/

/-- The `indexStatus` field of an indexed codebase. -/
inductive IndexStatus where
  | completed
  | limit_reached
deriving DecidableEq, Repr

/-- The tagged `CodebaseInfo` union: `indexing`, `indexed` or
`indexfailed`, each carrying its `lastUpdated` timestamp string. -/
inductive CodebaseInfo where
  | indexing (indexingPercentage : ℚ) (lastUpdated : String)
  | indexed (indexedFiles : Nat) (totalChunks : Nat) (indexStatus : IndexStatus)
      (lastUpdated : String)
  | indexfailed (errorMessage : String) (lastAttemptedPercentage : Option ℚ)
      (lastUpdated : String)
deriving DecidableEq, Repr

/-- Whether a `CodebaseInfo` has status `indexed`. -/
def CodebaseInfo.isIndexed : CodebaseInfo → Bool
  | .indexed _ _ _ _ => true
  | _ => false

/-- Whether a `CodebaseInfo` has status `indexing`. -/
def CodebaseInfo.isIndexing : CodebaseInfo → Bool
  | .indexing _ _ => true
  | _ => false

/-- The legacy `indexingCodebases` field: an array of paths or a map from
path to progress percentage. -/
inductive IndexingCodebases where
  | arr (paths : List String)
  | map (entries : List (String × ℚ))
deriving DecidableEq, Repr

/-- The legacy V1 snapshot (`CodebaseSnapshotV1`). -/
structure CodebaseSnapshotV1 where
  indexedCodebases : List String
  indexingCodebases : IndexingCodebases
  lastUpdated : String
deriving DecidableEq, Repr

/-- The V2 snapshot held in memory: the `codebases` record (an association
list keyed by absolute path) and `lastUpdated`. -/
structure CodebaseSnapshotV2 where
  codebases : List (String × CodebaseInfo)
  lastUpdated : String
deriving DecidableEq, Repr

/-- The serialized V2 snapshot file, with its explicit `formatVersion`. -/
structure SnapshotFileV2 where
  formatVersion : String
  codebases : List (String × CodebaseInfo)
  lastUpdated : String
deriving DecidableEq, Repr

/-- A successfully parsed snapshot file: the loader treats a missing
`formatVersion` the same as `"v1"`, so the parse step tags such contents
`v1`. -/
inductive ParsedSnapshot where
  | v1 (s : CodebaseSnapshotV1)
  | v2 (s : CodebaseSnapshotV2)
deriving DecidableEq, Repr

/-- What the constructor finds at the snapshot path:
the file is missing, its content is not valid JSON, or it parsed. -/
inductive FileContent where
  | missing
  | invalid (raw : String)
  | parsed (s : ParsedSnapshot)

/-- The empty snapshot a fresh or failed load starts from. -/
def emptySnapshot (now : String) : CodebaseSnapshotV2 :=
  ⟨[], now⟩

/-- Modelled from the spec: the `SnapshotManager` V1→V2 migration (the
manager implementation in `packages/mcp/src/snapshot.ts` is absent from
the repository snapshot; only its tests are). `indexedCodebases` entries
whose directory still exists become `indexed` entries with zero counts and
`completed` status; `indexingCodebases` entries become `indexing` entries
with percentage `0` for the array form or the mapped value for the map
form; codebases whose directories no longer exist are dropped. `dirOk` is
the `fs.existsSync` check and `now` the timestamp of the migration. -/
def migrateV1 (dirOk : String → Bool) (now : String) (s : CodebaseSnapshotV1) :
    CodebaseSnapshotV2 :=
  let indexedEntries := (s.indexedCodebases.filter dirOk).map
    (fun p => (p, CodebaseInfo.indexed 0 0 IndexStatus.completed now))
  let indexingEntries :=
    match s.indexingCodebases with
    | .arr ps => (ps.filter dirOk).map (fun p => (p, CodebaseInfo.indexing 0 now))
    | .map es => (es.filter (fun e => dirOk e.1)).map
        (fun e => (e.1, CodebaseInfo.indexing e.2 now))
  ⟨indexedEntries ++ indexingEntries, now⟩

/-- Serialization of the in-memory snapshot: `saveCodebaseSnapshot` always
writes `formatVersion: "v2"`. -/
def saveCodebaseSnapshot (s : CodebaseSnapshotV2) : SnapshotFileV2 :=
  ⟨"v2", s.codebases, s.lastUpdated⟩

/-- Modelled from the spec: loading the snapshot file. A missing file or a
parse failure yields the empty snapshot (errors never escape the manager);
a V1 file is migrated (the `Bool` records that the upgraded snapshot must
be saved back); a V2 file is taken as is. -/
def loadSnapshot (dirOk : String → Bool) (now : String) (file : FileContent) :
    CodebaseSnapshotV2 × Bool :=
  match file with
  | .missing => (emptySnapshot now, false)
  | .invalid _ => (emptySnapshot now, false)
  | .parsed (.v2 s) => (s, false)
  | .parsed (.v1 s) => (migrateV1 dirOk now s, true)

/-- The `SnapshotManager` in-memory state. -/
structure SnapshotManager where
  snapshot : CodebaseSnapshotV2

/-- Modelled from the spec: the `SnapshotManager` constructor — load the
file, and when a migration happened, save the upgraded snapshot back
(returned as the optional written file). -/
def SnapshotManager.new (dirOk : String → Bool) (now : String) (file : FileContent) :
    SnapshotManager × Option SnapshotFileV2 :=
  let res := loadSnapshot dirOk now file
  (⟨res.1⟩, if res.2 then some (saveCodebaseSnapshot res.1) else none)

/-- Modelled from the spec: `getIndexedCodebases` — the paths whose entry
has status `indexed`. -/
def SnapshotManager.getIndexedCodebases (m : SnapshotManager) : List String :=
  (m.snapshot.codebases.filter (fun e => e.2.isIndexed)).map Prod.fst

/-- Modelled from the spec: `getIndexingCodebases` — the paths whose entry
has status `indexing`. -/
def SnapshotManager.getIndexingCodebases (m : SnapshotManager) : List String :=
  (m.snapshot.codebases.filter (fun e => e.2.isIndexing)).map Prod.fst

/-! MCP tool handlers. The `ToolHandlers` implementation
(`packages/mcp/src/handlers.ts`) is absent from the repository snapshot;
the handlers below are modelled from the spec (its §4.7 operation
contracts and §7 error taxonomy) with the branch order pinned by the unit
tests in src/unnamed/part_001. State the handlers touch is the snapshot
view `{indexedCodebases, indexingCodebases}`; outgoing engine calls
(`clearIndex`, `semanticSearch`) are recorded in the result. -/

/-- The filesystem facts the preflight checks consult
(`fs.existsSync`, `fs.statSync(...).isDirectory()`). -/
structure Fs where
  pathExists : String → Bool
  isDirectory : String → Bool

/-- A structured tool response: its text and the `isError` flag. -/
structure McpResponse where
  text : String
  isError : Bool
deriving DecidableEq, Repr

/-- The snapshot state a handler reads and may update. -/
structure SnapState where
  indexedCodebases : List String
  indexingCodebases : List String
deriving DecidableEq, Repr

/-- Arguments of `handleIndexCodebase` (after defaulting: `force` defaults
to false and `splitter` to `ast`). -/
structure IndexArgs where
  path : String
  force : Bool
  splitter : String

/-- Result of `handleIndexCodebase`: the response, the updated snapshot
state, the `clearIndex` calls made, and whether the snapshot was saved. -/
structure IndexResult where
  response : McpResponse
  state : SnapState
  clearIndexCalls : List String
  snapshotSaved : Bool

/-- Modelled from the spec: `handleIndexCodebase`. Preflight path checks
fail first with no state change; an invalid `splitter` is rejected; a path
already in the indexing set fails with the already-being-indexed error; an
already-indexed path without `force` fails with the already-indexed error;
with `force` the handler calls `clearIndex(path)` and removes the indexed
entry, then (in every success case) transitions the path to
`indexing`, saves the snapshot and acknowledges the background start. -/
def handleIndexCodebase (fs : Fs) (st : SnapState) (args : IndexArgs) : IndexResult :=
  if fs.pathExists args.path = false then
    ⟨⟨"Error: Path does not exist: " ++ args.path, true⟩, st, [], false⟩
  else if fs.isDirectory args.path = false then
    ⟨⟨"Error: Path is not a directory: " ++ args.path, true⟩, st, [], false⟩
  else if args.splitter ≠ "ast" ∧ args.splitter ≠ "langchain" then
    ⟨⟨"Error: Invalid splitter type: " ++ args.splitter, true⟩, st, [], false⟩
  else if st.indexingCodebases.contains args.path then
    ⟨⟨"Codebase " ++ args.path ++ " is already being indexed", true⟩, st, [], false⟩
  else if st.indexedCodebases.contains args.path ∧ args.force = false then
    ⟨⟨"Codebase " ++ args.path ++ " is already indexed. Use force to reindex.", true⟩,
      st, [], false⟩
  else
    let clears := if st.indexedCodebases.contains args.path then [args.path] else []
    ⟨⟨"Started background indexing for codebase: " ++ args.path, false⟩,
      ⟨st.indexedCodebases.filter (fun p => p != args.path),
        st.indexingCodebases ++ [args.path]⟩,
      clears, true⟩

/-- Arguments of `handleSearchCode` (after defaulting `limit` to 10). -/
structure SearchArgs where
  path : String
  query : String
  limit : Nat
  extensionFilter : Option (List String)

/-- A dispatched `semanticSearch` call: the codebase path, query, limit
and the optional metadata filter predicate on `fileExtension`. -/
structure SearchCall where
  path : String
  query : String
  limit : Nat
  filter : Option (String → Bool)

/-- Result of `handleSearchCode`: the response, the (unchanged) snapshot
state, and the `semanticSearch` calls dispatched. -/
structure SearchResult where
  response : McpResponse
  state : SnapState
  searchCalls : List SearchCall

/-- The per-entry extension-filter validation `^\.[a-zA-Z0-9]+$`: a dot
followed by one or more ASCII alphanumeric characters. -/
def validExtension (e : String) : Bool :=
  match e.data with
  | [] => false
  | c :: rest => c = '.' && !rest.isEmpty && rest.all Char.isAlphanum

/-- The filter predicate a validated extension list denotes: membership of
the document's `fileExtension` in the list (the dispatched expression
`fileExtension in [...]`, i.e. equality against some entry). -/
def extensionFilterMatches (exts : List String) (fileExtension : String) : Bool :=
  exts.contains fileExtension

/-- Modelled from the spec: `handleSearchCode`. Preflight path checks fail
first; a path neither indexed nor indexing fails with the not-indexed
error; an extension filter with an entry failing `validExtension` fails
with the invalid-extensions error and dispatches no search; otherwise one
search is dispatched, carrying the filter predicate when a filter was
given. -/
def handleSearchCode (fs : Fs) (st : SnapState) (args : SearchArgs) : SearchResult :=
  if fs.pathExists args.path = false then
    ⟨⟨"Error: Path does not exist: " ++ args.path, true⟩, st, []⟩
  else if fs.isDirectory args.path = false then
    ⟨⟨"Error: Path is not a directory: " ++ args.path, true⟩, st, []⟩
  else if st.indexedCodebases.contains args.path = false ∧
      st.indexingCodebases.contains args.path = false then
    ⟨⟨"Codebase " ++ args.path ++ " is not indexed", true⟩, st, []⟩
  else
    match args.extensionFilter with
    | some exts =>
      if exts.any (fun e => !validExtension e) then
        ⟨⟨"Error: Invalid file extensions in filter", true⟩, st, []⟩
      else
        ⟨⟨"Search results", false⟩, st,
          [⟨args.path, args.query, args.limit, some (extensionFilterMatches exts)⟩]⟩
    | none =>
      ⟨⟨"Search results", false⟩, st, [⟨args.path, args.query, args.limit, none⟩]⟩

/-- Result of `handleClearIndex`: the response, the updated snapshot
state, the `clearIndex` calls made, and whether the snapshot was saved. -/
structure ClearResult where
  response : McpResponse
  state : SnapState
  clearIndexCalls : List String
  snapshotSaved : Bool

/-- Modelled from the spec and the unit tests: `handleClearIndex`. When
nothing is indexed or being indexed the handler returns an informational
(non-error) message before any path check; then the preflight path checks;
then the not-indexed check; on success it calls `clearIndex(path)`,
removes the entry completely and saves the snapshot. -/
def handleClearIndex (fs : Fs) (st : SnapState) (path : String) : ClearResult :=
  if st.indexedCodebases.isEmpty && st.indexingCodebases.isEmpty then
    ⟨⟨"No codebases are currently indexed or being indexed.", false⟩, st, [], false⟩
  else if fs.pathExists path = false then
    ⟨⟨"Error: Path does not exist: " ++ path, true⟩, st, [], false⟩
  else if fs.isDirectory path = false then
    ⟨⟨"Error: Path is not a directory: " ++ path, true⟩, st, [], false⟩
  else if st.indexedCodebases.contains path = false ∧
      st.indexingCodebases.contains path = false then
    ⟨⟨"Codebase " ++ path ++ " is not indexed or being indexed", true⟩, st, [], false⟩
  else
    ⟨⟨"Successfully cleared index for codebase: " ++ path, false⟩,
      ⟨st.indexedCodebases.filter (fun p => p != path),
        st.indexingCodebases.filter (fun p => p != path)⟩,
      [path], true⟩

/-- Result of `handleGetIndexingStatus`: a pure read — the response and
the (unchanged) snapshot state. -/
structure StatusResult where
  response : McpResponse
  state : SnapState

/-- Modelled from the spec: `handleGetIndexingStatus`. Preflight path
checks fail first; otherwise the snapshot status is reported without any
state change. -/
def handleGetIndexingStatus (fs : Fs) (st : SnapState) (path : String) : StatusResult :=
  if fs.pathExists path = false then
    ⟨⟨"Error: Path does not exist: " ++ path, true⟩, st⟩
  else if fs.isDirectory path = false then
    ⟨⟨"Error: Path is not a directory: " ++ path, true⟩, st⟩
  else if st.indexingCodebases.contains path then
    ⟨⟨"Codebase " ++ path ++ " is currently being indexed", false⟩, st⟩
  else if st.indexedCodebases.contains path then
    ⟨⟨"Codebase " ++ path ++ " is fully indexed", false⟩, st⟩
  else
    ⟨⟨"Codebase " ++ path ++ " is not indexed", false⟩, st⟩

/-! Theorems. -/

/-- Every index produced by a `% 16` lands on a lowercase hex digit. -/
theorem hexChars_getD_mod_mem (k : Nat) : hexChars.getD (k % 16) '0' ∈ hexChars := by
  have hlen : hexChars.length = 16 := by decide
  have h : k % 16 < hexChars.length := by
    rw [hlen]; exact Nat.mod_lt _ (by norm_num)
  rw [List.getD_eq_getElem _ _ h]
  exact List.getElem_mem h

/-- The hex digit list of a digest has exactly `count` characters. -/
theorem toHexDigits_length (n count : Nat) : (toHexDigits n count).length = count := by
  simp [toHexDigits]

/-- C1: for every codebase path `p`, `getCollectionName p` is exactly
`"hybrid_code_chunks_"` followed by the path fingerprint `getPathHash p`;
the fingerprint is exactly 8 characters, all lowercase hexadecimal; the
collection-name builder and the path registry use the same fingerprint
value for the same path. -/
theorem getCollectionName_fingerprint (p : String) :
    getCollectionName p = "hybrid_code_chunks_" ++ getPathHash p ∧
    (getPathHash p).length = 8 ∧
    ∀ c ∈ (getPathHash p).data, c ∈ hexChars := by
  refine ⟨rfl, ?_, ?_⟩
  · show ((sha256HexDigits p).take 8).length = 8
    rw [List.length_take, sha256HexDigits, toHexDigits_length]
    decide
  · intro c hc
    have hc' : c ∈ sha256HexDigits p := List.mem_of_mem_take hc
    rw [sha256HexDigits, toHexDigits] at hc'
    obtain ⟨i, _, hi⟩ := List.mem_map.mp hc'
    rw [← hi]
    exact hexChars_getD_mod_mem _

/-- C1 witness: the fingerprint of the spec's concrete example path
`/tmp/foo` has length 8. -/
theorem getCollectionName_fingerprint_witness : (getPathHash "/tmp/foo").length = 8 :=
  (getCollectionName_fingerprint "/tmp/foo").2.1

/-- C2 counterexample: the migration drops codebases whose directories no
longer exist, so a V1 path from `indexedCodebases` whose directory is gone
does not become an entry at all — the migrated snapshot is empty, against
the claim that every `indexedCodebases` path becomes an `indexed` entry. -/
theorem snapshot_v1_migration_counterexample :
    (SnapshotManager.new (fun _ => false) "t"
      (FileContent.parsed (ParsedSnapshot.v1
        ⟨["/gone"], IndexingCodebases.arr [], "old"⟩))).1.snapshot.codebases = [] :=
  rfl

/-- C2 amended: loading a legacy V1 snapshot produces a V2 snapshot in
which each still-existing path from `indexedCodebases` becomes an
`indexed` entry with zero files, zero chunks and `completed` status, and
each still-existing path from `indexingCodebases` becomes an `indexing`
entry whose percentage is `0` for the array form or the mapped value for
the map form; the upgraded snapshot is saved back with
`formatVersion "v2"`. -/
theorem snapshot_v1_migration (dirOk : String → Bool) (now : String)
    (s : CodebaseSnapshotV1) :
    (∀ p ∈ s.indexedCodebases, dirOk p = true →
      (p, CodebaseInfo.indexed 0 0 IndexStatus.completed now) ∈
        (SnapshotManager.new dirOk now
          (FileContent.parsed (ParsedSnapshot.v1 s))).1.snapshot.codebases) ∧
    (∀ ps, s.indexingCodebases = IndexingCodebases.arr ps →
      ∀ p ∈ ps, dirOk p = true →
        (p, CodebaseInfo.indexing 0 now) ∈
          (SnapshotManager.new dirOk now
            (FileContent.parsed (ParsedSnapshot.v1 s))).1.snapshot.codebases) ∧
    (∀ es, s.indexingCodebases = IndexingCodebases.map es →
      ∀ e ∈ es, dirOk e.1 = true →
        (e.1, CodebaseInfo.indexing e.2 now) ∈
          (SnapshotManager.new dirOk now
            (FileContent.parsed (ParsedSnapshot.v1 s))).1.snapshot.codebases) ∧
    (SnapshotManager.new dirOk now (FileContent.parsed (ParsedSnapshot.v1 s))).2 =
      some ⟨"v2",
        (SnapshotManager.new dirOk now
          (FileContent.parsed (ParsedSnapshot.v1 s))).1.snapshot.codebases, now⟩ := by
  refine ⟨?_, ?_, ?_, rfl⟩
  · intro p hp hd
    show _ ∈ (migrateV1 dirOk now s).codebases
    unfold migrateV1
    exact List.mem_append_left _
      (List.mem_map_of_mem _ (List.mem_filter.mpr ⟨hp, hd⟩))
  · intro ps hps p hp hd
    show _ ∈ (migrateV1 dirOk now s).codebases
    unfold migrateV1
    rw [hps]
    exact List.mem_append_right _
      (List.mem_map_of_mem _ (List.mem_filter.mpr ⟨hp, hd⟩))
  · intro es hes e he hd
    show _ ∈ (migrateV1 dirOk now s).codebases
    unfold migrateV1
    rw [hes]
    exact List.mem_append_right _
      (List.mem_map_of_mem _ (List.mem_filter.mpr ⟨he, hd⟩))

/-- C2 witness: migrating the V1 snapshot
`{indexedCodebases: ["/a"], indexingCodebases: ["/b"]}` with every
directory existing yields the expected `indexed` entry for `/a`. -/
theorem snapshot_v1_migration_witness :
    ("/a", CodebaseInfo.indexed 0 0 IndexStatus.completed "t") ∈
      (SnapshotManager.new (fun _ => true) "t"
        (FileContent.parsed (ParsedSnapshot.v1
          ⟨["/a"], IndexingCodebases.arr ["/b"], "old"⟩))).1.snapshot.codebases :=
  (snapshot_v1_migration (fun _ => true) "t"
    ⟨["/a"], IndexingCodebases.arr ["/b"], "old"⟩).1 "/a" (by simp) rfl

/-- C3: constructing a `SnapshotManager` on a missing file or on content
that is not valid JSON yields the empty snapshot: `getIndexedCodebases`
returns the empty list (and nothing escapes the constructor — the loader
is a total function). -/
theorem snapshot_load_graceful (dirOk : String → Bool) (now : String)
    (file : FileContent) (raw : String)
    (h : file = FileContent.missing ∨ file = FileContent.invalid raw) :
    (SnapshotManager.new dirOk now file).1.getIndexedCodebases = [] := by
  rcases h with h | h <;> subst h <;> rfl

/-- C3 witness: a missing snapshot file yields no indexed codebases. -/
theorem snapshot_load_graceful_witness :
    (SnapshotManager.new (fun _ => true) "t" FileContent.missing).1.getIndexedCodebases
      = [] :=
  snapshot_load_graceful (fun _ => true) "t" FileContent.missing "" (Or.inl rfl)

/-- C4: for `handleIndexCodebase` on an existing directory with a valid
splitter: a path in the indexing set yields the already-indexing error; an
indexed path without `force` yields the already-indexed error; an indexed
path with `force` has `clearIndex(path)` invoked, succeeds, and the path
re-enters the indexing set. -/
theorem handleIndexCodebase_guards (fs : Fs) (st : SnapState) (args : IndexArgs)
    (hex : fs.pathExists args.path = true)
    (hdir : fs.isDirectory args.path = true)
    (hsp : args.splitter = "ast" ∨ args.splitter = "langchain") :
    (args.path ∈ st.indexingCodebases →
      (handleIndexCodebase fs st args).response.isError = true) ∧
    (args.path ∉ st.indexingCodebases →
      args.path ∈ st.indexedCodebases → args.force = false →
      (handleIndexCodebase fs st args).response.isError = true) ∧
    (args.path ∉ st.indexingCodebases →
      args.path ∈ st.indexedCodebases → args.force = true →
      (handleIndexCodebase fs st args).clearIndexCalls = [args.path] ∧
      (handleIndexCodebase fs st args).response.isError = false ∧
      args.path ∈ (handleIndexCodebase fs st args).state.indexingCodebases) := by
  have hsp' : ¬(args.splitter ≠ "ast" ∧ args.splitter ≠ "langchain") := by
    rcases hsp with h | h <;> simp [h]
  refine ⟨?_, ?_, ?_⟩
  · intro hing
    simp [handleIndexCodebase, hex, hdir, hsp', hing]
  · intro hing hed hforce
    simp [handleIndexCodebase, hex, hdir, hsp', hing, hed, hforce]
  · intro hing hed hforce
    refine ⟨?_, ?_, ?_⟩ <;>
      simp [handleIndexCodebase, hex, hdir, hsp', hing, hed, hforce]

/-- C4 witness: on an already-indexed `/p` with `force`, the handler calls
`clearIndex "/p"`. -/
theorem handleIndexCodebase_guards_witness :
    (handleIndexCodebase ⟨fun _ => true, fun _ => true⟩ ⟨["/p"], []⟩
      ⟨"/p", true, "ast"⟩).clearIndexCalls = ["/p"] :=
  ((handleIndexCodebase_guards ⟨fun _ => true, fun _ => true⟩ ⟨["/p"], []⟩
    ⟨"/p", true, "ast"⟩ rfl rfl (Or.inl rfl)).2.2 (by decide) (by decide) rfl).1

/-- C5: for `handleSearchCode` on an existing, indexed directory with an
extension filter: an entry failing `^\.[a-zA-Z0-9]+$` yields an error
response with no search dispatched; when all entries pass, exactly one
search is dispatched whose filter holds of a file extension precisely when
it equals one of the entries. -/
theorem handleSearchCode_extensionFilter (fs : Fs) (st : SnapState)
    (args : SearchArgs) (exts : List String)
    (hex : fs.pathExists args.path = true)
    (hdir : fs.isDirectory args.path = true)
    (hst : args.path ∈ st.indexedCodebases ∨ args.path ∈ st.indexingCodebases)
    (hfil : args.extensionFilter = some exts) :
    ((∃ e ∈ exts, validExtension e = false) →
      (handleSearchCode fs st args).response.isError = true ∧
      (handleSearchCode fs st args).searchCalls = []) ∧
    ((∀ e ∈ exts, validExtension e = true) →
      (handleSearchCode fs st args).searchCalls =
        [⟨args.path, args.query, args.limit, some (extensionFilterMatches exts)⟩] ∧
      (handleSearchCode fs st args).response.isError = false) ∧
    (∀ x, extensionFilterMatches exts x = true ↔ ∃ e ∈ exts, x = e) := by
  have hst' : ¬(args.path ∉ st.indexedCodebases ∧ args.path ∉ st.indexingCodebases) := by
    rcases hst with h | h <;> simp [h]
  refine ⟨?_, ?_, ?_⟩
  · intro hbad
    have hany : exts.any (fun e => !validExtension e) = true := by
      obtain ⟨e, he, hv⟩ := hbad
      exact List.any_eq_true.mpr ⟨e, he, by simp [hv]⟩
    constructor <;> simp [handleSearchCode, hex, hdir, hst', hfil, hany]
  · intro hgood
    have hany : exts.any (fun e => !validExtension e) = false := by
      rw [List.any_eq_false]
      intro e he
      simp [hgood e he]
    constructor <;> simp [handleSearchCode, hex, hdir, hst', hfil, hany]
  · intro x
    simp [extensionFilterMatches, List.contains_iff_exists_mem_beq, eq_comm]

/-- C5 witness: the entry `"invalid"` (no leading dot) makes the handler
fail and dispatch no search on an indexed codebase. -/
theorem handleSearchCode_extensionFilter_witness :
    (handleSearchCode ⟨fun _ => true, fun _ => true⟩ ⟨["/p"], []⟩
      ⟨"/p", "q", 10, some ["invalid"]⟩).searchCalls = [] :=
  ((handleSearchCode_extensionFilter ⟨fun _ => true, fun _ => true⟩ ⟨["/p"], []⟩
    ⟨"/p", "q", 10, some ["invalid"]⟩ ["invalid"] rfl rfl (Or.inl (by decide)) rfl).1
    ⟨"invalid", by decide, by decide⟩).2

/-- C6 counterexample: with an empty snapshot, `handleClearIndex` on a
path that does not exist returns the informational no-codebases message —
its `isError` flag is `false`, not `true` as the claim states for every
handler on a bad path. -/
theorem handleClearIndex_empty_snapshot_counterexample :
    (handleClearIndex ⟨fun _ => false, fun _ => false⟩ ⟨[], []⟩
      "/non/existent/path").response.isError = false :=
  rfl

/-- C6 amended: on a path that does not exist or is not a directory, the
index, search and status handlers return an error response, and every
handler (clear included) leaves the snapshot unchanged and makes no
`clearIndex` or `semanticSearch` call and saves nothing; `handleClearIndex`
also returns an error response whenever at least one codebase is indexed
or being indexed, while on a fully empty snapshot it returns a non-error
informational message (still with no state change). -/
theorem handlers_preflight_frame (fs : Fs) (st : SnapState) (p : String)
    (force : Bool) (splitter : String) (query : String) (limit : Nat)
    (extFilter : Option (List String))
    (hbad : fs.pathExists p = false ∨ fs.isDirectory p = false) :
    ((handleIndexCodebase fs st ⟨p, force, splitter⟩).response.isError = true ∧
      (handleIndexCodebase fs st ⟨p, force, splitter⟩).state = st ∧
      (handleIndexCodebase fs st ⟨p, force, splitter⟩).clearIndexCalls = [] ∧
      (handleIndexCodebase fs st ⟨p, force, splitter⟩).snapshotSaved = false) ∧
    ((handleSearchCode fs st ⟨p, query, limit, extFilter⟩).response.isError = true ∧
      (handleSearchCode fs st ⟨p, query, limit, extFilter⟩).state = st ∧
      (handleSearchCode fs st ⟨p, query, limit, extFilter⟩).searchCalls = []) ∧
    ((handleGetIndexingStatus fs st p).response.isError = true ∧
      (handleGetIndexingStatus fs st p).state = st) ∧
    ((handleClearIndex fs st p).state = st ∧
      (handleClearIndex fs st p).clearIndexCalls = [] ∧
      (handleClearIndex fs st p).snapshotSaved = false ∧
      ((st.indexedCodebases.isEmpty && st.indexingCodebases.isEmpty) = false →
        (handleClearIndex fs st p).response.isError = true)) := by
  rcases hbad with hbad | hbad
  · refine ⟨?_, ?_, ?_, ?_⟩
    · exact ⟨by simp [handleIndexCodebase, hbad], by simp [handleIndexCodebase, hbad],
        by simp [handleIndexCodebase, hbad], by simp [handleIndexCodebase, hbad]⟩
    · exact ⟨by simp [handleSearchCode, hbad], by simp [handleSearchCode, hbad],
        by simp [handleSearchCode, hbad]⟩
    · exact ⟨by simp [handleGetIndexingStatus, hbad], by simp [handleGetIndexingStatus, hbad]⟩
    · cases hemp : st.indexedCodebases.isEmpty && st.indexingCodebases.isEmpty <;>
        refine ⟨?_, ?_, ?_, ?_⟩ <;>
        simp [handleClearIndex, hemp, hbad]
  · rcases hex : fs.pathExists p with _ | _
    · refine ⟨?_, ?_, ?_, ?_⟩
      · exact ⟨by simp [handleIndexCodebase, hex], by simp [handleIndexCodebase, hex],
          by simp [handleIndexCodebase, hex], by simp [handleIndexCodebase, hex]⟩
      · exact ⟨by simp [handleSearchCode, hex], by simp [handleSearchCode, hex],
          by simp [handleSearchCode, hex]⟩
      · exact ⟨by simp [handleGetIndexingStatus, hex], by simp [handleGetIndexingStatus, hex]⟩
      · cases hemp : st.indexedCodebases.isEmpty && st.indexingCodebases.isEmpty <;>
          refine ⟨?_, ?_, ?_, ?_⟩ <;>
          simp [handleClearIndex, hemp, hex]
    · refine ⟨?_, ?_, ?_, ?_⟩
      · exact ⟨by simp [handleIndexCodebase, hex, hbad],
          by simp [handleIndexCodebase, hex, hbad],
          by simp [handleIndexCodebase, hex, hbad],
          by simp [handleIndexCodebase, hex, hbad]⟩
      · exact ⟨by simp [handleSearchCode, hex, hbad],
          by simp [handleSearchCode, hex, hbad],
          by simp [handleSearchCode, hex, hbad]⟩
      · exact ⟨by simp [handleGetIndexingStatus, hex, hbad],
          by simp [handleGetIndexingStatus, hex, hbad]⟩
      · cases hemp : st.indexedCodebases.isEmpty && st.indexingCodebases.isEmpty <;>
          refine ⟨?_, ?_, ?_, ?_⟩ <;>
          simp [handleClearIndex, hemp, hex, hbad]

/-- C6 amended witness: with `/q` indexed, `handleClearIndex` on the
missing path `/p` errors out. -/
theorem handlers_preflight_frame_witness :
    (handleClearIndex ⟨fun _ => false, fun _ => false⟩ ⟨["/q"], []⟩
      "/p").response.isError = true :=
  (handlers_preflight_frame ⟨fun _ => false, fun _ => false⟩ ⟨["/q"], []⟩
    "/p" false "ast" "q" 10 none (Or.inl rfl)).2.2.2.2.2.2 (by decide)

/-- C7 counterexample: an `OpenAIEmbedding` configured with the unknown
custom model `my-custom-model` and no manual dimension override has
`getDimension() = 0`, not a value strictly greater than 0 as the claim
states for any model name. -/
theorem getDimension_custom_model_counterexample :
    getDimension ⟨"my-custom-model", "test-key", none, none⟩ = 0 :=
  rfl

/-- Every known OpenAI model dimension in the support table is positive. -/
theorem knownModelDimension_pos (m : String) (d : Nat)
    (h : knownModelDimension m = some d) : 0 < d := by
  unfold knownModelDimension at h
  split at h
  · simp at h; omega
  · split at h
    · simp at h; omega
    · split at h
      · simp at h; omega
      · simp at h

/-- C7 amended: `getDimension()` is strictly positive exactly when the
configured model (after the `text-embedding-3-small` empty-string default)
is one of the known OpenAI models, or a manual dimension override greater
than 0 is supplied; for an unknown custom model without such an override
it returns 0, the documented signal that the dimension must be configured
manually. -/
theorem getDimension_positive_iff (config : OpenAIEmbeddingConfig) :
    0 < getDimension config ↔
      (knownModelDimension (jsOrStr config.model "text-embedding-3-small")).isSome ∨
      (∃ d, config.dimension = some d ∧ 0 < d) := by
  cases hk : knownModelDimension (jsOrStr config.model "text-embedding-3-small") with
  | some d =>
    have hd := knownModelDimension_pos _ _ hk
    simp [getDimension, hk, hd]
  | none =>
    cases hdim : config.dimension with
    | none => simp [getDimension, hk, hdim]
    | some d =>
      by_cases hpos : 0 < d
      · simp [getDimension, hk, hdim, hpos]
      · simp [getDimension, hk, hdim, hpos]

/-- The mock embedding always has exactly the requested dimension. -/
theorem mockEmbedWithDimension_length (text : String) (dim : Nat) :
    (mockEmbedWithDimension text dim).length = dim := by
  simp [mockEmbedWithDimension]

/-- C8: for every non-empty list of input texts, `embedBatch` of a
`MockEmbeddingProvider` returns one embedding per input, and each returned
vector has exactly `getDimension()` components. -/
theorem embedBatch_lengths (dim : Nat) (texts : List String) (_h : texts ≠ []) :
    ((MockEmbeddingProvider.mk dim).embedBatch texts).length = texts.length ∧
    ∀ ev ∈ (MockEmbeddingProvider.mk dim).embedBatch texts,
      ev.vector.length = (MockEmbeddingProvider.mk dim).getDimension := by
  refine ⟨by simp [MockEmbeddingProvider.embedBatch], ?_⟩
  intro ev hev
  rw [MockEmbeddingProvider.embedBatch] at hev
  obtain ⟨t, _, ht⟩ := List.mem_map.mp hev
  rw [← ht]
  simp [MockEmbeddingProvider.embed, MockEmbeddingProvider.getDimension,
    mockEmbedWithDimension_length]

/-- C8 witness: a batch of one text at the default dimension 1536 yields
one embedding. -/
theorem embedBatch_lengths_witness :
    ((MockEmbeddingProvider.mk 1536).embedBatch ["hello"]).length = 1 :=
  (embedBatch_lengths 1536 ["hello"] (by decide)).1

/-- C9: when `EMBEDDING_PROVIDER` resolves to a string outside the valid
lowercase list (for example a capitalized spelling), `createMcpConfig`
silently sets `embeddingProvider` to `openai` — it cannot fail, being a
total function — while the embedding model is still resolved from the
raw, unvalidated provider string. -/
theorem createMcpConfig_invalid_provider (env : Env)
    (h : validProviders.contains (jsOr (env "EMBEDDING_PROVIDER") "openai") = false) :
    (createMcpConfig env).embeddingProvider = "openai" ∧
    (createMcpConfig env).embeddingModel
      = getEmbeddingModelForProvider env (jsOr (env "EMBEDDING_PROVIDER") "openai") := by
  have h' : jsOr (env "EMBEDDING_PROVIDER") "openai" ∉ validProviders := by
    simpa using h
  constructor <;> simp [createMcpConfig, h']

/-- C9 witness: `EMBEDDING_PROVIDER=OpenAI` (capitalized) falls back to
the `openai` provider. -/
theorem createMcpConfig_invalid_provider_witness :
    (createMcpConfig (fun k =>
      if k = "EMBEDDING_PROVIDER" then some "OpenAI" else none)).embeddingProvider
      = "openai" :=
  (createMcpConfig_invalid_provider
    (fun k => if k = "EMBEDDING_PROVIDER" then some "OpenAI" else none)
    (by decide)).1

/-- C10: for provider `ollama`, `OLLAMA_MODEL` takes priority over
`EMBEDDING_MODEL` when both are set, and with neither set the default
`nomic-embed-text` is returned; for every other provider string,
`EMBEDDING_MODEL` is used when set, else that provider's default model. -/
theorem embeddingModel_selection (env : Env) (provider : String) :
    (provider = "ollama" →
      (∀ om em, env "OLLAMA_MODEL" = some om → om ≠ "" →
        env "EMBEDDING_MODEL" = some em →
        getEmbeddingModelForProvider env provider = om) ∧
      (env "OLLAMA_MODEL" = none → env "EMBEDDING_MODEL" = none →
        getEmbeddingModelForProvider env provider = "nomic-embed-text")) ∧
    (provider ≠ "ollama" →
      (∀ em, env "EMBEDDING_MODEL" = some em → em ≠ "" →
        getEmbeddingModelForProvider env provider = em) ∧
      (env "EMBEDDING_MODEL" = none →
        getEmbeddingModelForProvider env provider = getDefaultModelForProvider provider)) := by
  constructor
  · intro hp
    subst hp
    constructor
    · intro om em hom hne _
      simp [getEmbeddingModelForProvider, jsOr, hom, hne]
    · intro h1 h2
      simp [getEmbeddingModelForProvider, jsOr, h1, h2, getDefaultModelForProvider]
  · intro hp
    constructor
    · intro em hem hne
      simp [getEmbeddingModelForProvider, hp, jsOr, hem, hne]
    · intro h
      simp [getEmbeddingModelForProvider, hp, jsOr, h]

/-- C10 witness: for `ollama` with both variables set, `OLLAMA_MODEL`
wins. -/
theorem embeddingModel_selection_witness :
    getEmbeddingModelForProvider
      (fun k => if k = "OLLAMA_MODEL" then some "mxbai-embed-large"
        else if k = "EMBEDDING_MODEL" then some "nomic-embed-text" else none)
      "ollama" = "mxbai-embed-large" :=
  ((embeddingModel_selection
    (fun k => if k = "OLLAMA_MODEL" then some "mxbai-embed-large"
      else if k = "EMBEDDING_MODEL" then some "nomic-embed-text" else none)
    "ollama").1 rfl).1 "mxbai-embed-large" "nomic-embed-text"
    (by decide) (by decide) (by decide)

end ClaudeContext
